import Mathlib

/-!
Shallow embedding of `src/server.js` (Convoso → Forth webhook forwarder).

JavaScript-to-Lean conventions used throughout this development:
* JS strings are Lean `String`; character-level work happens on `List Char`.
* `a ?? b` (nullish coalescing) on optional fields becomes `a <|> b` on
  `Option String` (note `some ""` stops the chain, exactly as in JS, where
  the empty string is not nullish).
* `a || b` (truthiness fallback) on strings becomes `jsOrStr`, where the
  empty string falls through, as in JS.
* JS `Date.now()` timestamps are `Nat` milliseconds (`Int` where the source
  subtracts, to mirror JS signed arithmetic).
* `async` code is embedded as explicit state passing; the synchronous
  prefix of an async function (everything before its first `await`) is one
  atomic step of the event-loop model used for the concurrency claims.
-/

/-- JS `String.prototype.toLowerCase` restricted to `Char.toLower` per char. -/
def lowerList (s : List Char) : List Char :=
  s.map Char.toLower

/-- JS `String.prototype.toUpperCase` restricted to `Char.toUpper` per char. -/
def upperList (s : List Char) : List Char :=
  s.map Char.toUpper

/-- JS `String.prototype.trim`: drop whitespace from both ends. -/
def trimStr (s : String) : String :=
  String.mk (((s.data.dropWhile Char.isWhitespace).reverse.dropWhile Char.isWhitespace).reverse)

/-- Substring containment on character lists: `needle` occurs somewhere in
`hay`.  This is `regex.test` for a regex that is a plain literal string. -/
def strContains (hay needle : List Char) : Bool :=
  match hay with
  | [] => needle.isEmpty
  | _ :: t => needle.isPrefixOf hay || strContains t needle

/-- Case-insensitive containment test on strings: `/<needle>/i.test(hay)`
for a literal-only needle given in lowercase. -/
def strContainsCI (hay : String) (needle : String) : Bool :=
  strContains (lowerList hay.data) needle.data

/-- JS regex word character class `\w` = `[A-Za-z0-9_]`. -/
def isWordChar (c : Char) : Bool :=
  (('a' ≤ c && c ≤ 'z') || ('A' ≤ c && c ≤ 'Z') || ('0' ≤ c && c ≤ '9') || c = '_')

/-- `/na\b/` on an already-lowercased character list: the two characters
`na` occur with a word boundary after the `a` (end of string or a
non-word character). -/
def hasNaBoundary : List Char → Bool
  | [] => false
  | c :: t =>
    (c = 'n' && (match t with
      | 'a' :: rest =>
        (match rest with
         | [] => true
         | d :: _ => !isWordChar d)
      | _ => false)) || hasNaBoundary t

/-- JS `a || b` on an optional string: `a` is used only when present and
non-empty (truthy), otherwise `b`. -/
def jsOrStr (a : Option String) (b : Option String) : Option String :=
  match a with
  | some s => if s = "" then b else some s
  | none => b

/-- JS `Array.prototype.join(sep)` on a list of strings. -/
def joinSep (sep : String) : List String → String
  | [] => ""
  | [x] => x
  | x :: xs => x ++ sep ++ joinSep sep xs

/-- JS `String(n).padStart(2, "0")` for a natural number. -/
def pad2 (n : Nat) : String :=
  if n < 10 then "0" ++ toString n else toString n

-- `DISP` object of `server.js` (lines 31-36): Forth disposition ids.
namespace DISP

def NO_ANSWER : Nat := 1

def CONNECTED : Nat := 2

def LEFT_MESSAGE : Nat := 3

def BUSY : Nat := 6

end DISP

/-- `normalizePhone` (server.js lines 81-88).  The raw argument is
`Option String`: `none` models `undefined`/`null`; the JS falsy guard
`if (!raw) return ""` also catches the empty string.  `\D` removal keeps
exactly the decimal digits. -/
def normalizePhone (raw : Option String) : String :=
  match raw with
  | none => ""
  | some s =>
    if s = "" then ""
    else
      let d := s.data.filter Char.isDigit
      if d.length = 11 ∧ d.head? = some '1' then String.mk (d.drop 1)
      else String.mk d

/-- Transcription of the phone-normalizer claim (C6) as worded by the spec:
strip all non-digit characters; if the result is exactly 11 digits and
begins with `1`, drop the leading digit; absent input yields `""`. -/
def normalizePhoneSpec (raw : Option String) : String :=
  match raw with
  | none => ""
  | some s =>
    let d := s.data.filter Char.isDigit
    if d.length = 11 ∧ d.head? = some '1' then String.mk (d.drop 1)
    else String.mk d

/-- Argument record for `mapCallCompletedOutcome` (the `convoso` object's
outcome-relevant fields, including the alias fields the function reads). -/
structure OutcomeFields where
  term_reason : Option String
  term_reason_id : Option String
  status_name : Option String
  status : Option String
  disposition : Option String
  disposition_name : Option String
  call_result : Option String
  talk_time : Option Nat
  talk_seconds : Option Nat
deriving Repr, DecidableEq

/-- The all-absent `OutcomeFields` record. -/
def OutcomeFields.empty : OutcomeFields :=
  ⟨none, none, none, none, none, none, none, none, none⟩

/-- Outcome record returned by the classifier (`{ dispId, call_result, source }`). -/
structure Outcome where
  dispId : Nat
  call_result : String
  source : String
deriving Repr, DecidableEq

/-- `/no answer|noanswer|na\b/i` applied to the already-lowercased combined
text (server.js line 58). -/
def ccNoAnswerTest (combined : List Char) : Bool :=
  strContains combined "no answer".data || strContains combined "noanswer".data ||
    hasNaBoundary combined

/-- `/busy/i` (server.js line 61). -/
def ccBusyTest (combined : List Char) : Bool :=
  strContains combined "busy".data

/-- `/left|vm|voicemail|message/i` (server.js line 64). -/
def ccLeftMessageTest (combined : List Char) : Bool :=
  strContains combined "left".data || strContains combined "vm".data ||
    strContains combined "voicemail".data || strContains combined "message".data

/-- `mapCallCompletedOutcome` (server.js lines 42-68).  Field aliases are
resolved with `??` (so an explicitly present empty string stops the
chain), every text field is trimmed, talk time defaults to `0`, and the
four texts are joined with single spaces and lowercased before the regex
tests run. -/
def mapCallCompletedOutcome (convoso : OutcomeFields) : Outcome :=
  let termReason := trimStr ((convoso.term_reason <|> convoso.term_reason_id).getD "")
  let statusName := trimStr ((convoso.status_name <|> convoso.status).getD "")
  let disposition := trimStr ((convoso.disposition <|> convoso.disposition_name).getD "")
  let callResult := trimStr (convoso.call_result.getD "")
  let talkSec := (convoso.talk_time <|> convoso.talk_seconds).getD 0
  let combined := lowerList (termReason ++ " " ++ statusName ++ " " ++ disposition ++ " " ++ callResult).data
  let hasOutcome := talkSec > 0 || termReason ≠ "" || statusName ≠ "" || disposition ≠ "" || callResult ≠ ""
  if ¬hasOutcome then { dispId := DISP.CONNECTED, call_result := "Logged", source := "default" }
  else if talkSec > 0 then { dispId := DISP.CONNECTED, call_result := "Connected", source := "convoso" }
  else if ccNoAnswerTest combined then { dispId := DISP.NO_ANSWER, call_result := "No Answer", source := "convoso" }
  else if ccBusyTest combined then { dispId := DISP.BUSY, call_result := "Busy", source := "convoso" }
  else if ccLeftMessageTest combined then { dispId := DISP.LEFT_MESSAGE, call_result := "Left Message", source := "convoso" }
  else { dispId := DISP.CONNECTED, call_result := "Connected", source := "convoso" }

/-- Transcription of the outcome-classifier claim (C5) as worded: an
ordered, first-match-wins rule list — (1) no signal at all; (2) positive
talk time; (3) no-answer text; (4) busy; (5) left/vm/voicemail/message;
(6) default connected.  Alias resolution and text preparation are shared
with the code's reading of its argument. -/
def outcomeSpec (convoso : OutcomeFields) : Outcome :=
  let termReason := trimStr ((convoso.term_reason <|> convoso.term_reason_id).getD "")
  let statusName := trimStr ((convoso.status_name <|> convoso.status).getD "")
  let disposition := trimStr ((convoso.disposition <|> convoso.disposition_name).getD "")
  let callResult := trimStr (convoso.call_result.getD "")
  let talkSec := (convoso.talk_time <|> convoso.talk_seconds).getD 0
  let combined := lowerList (termReason ++ " " ++ statusName ++ " " ++ disposition ++ " " ++ callResult).data
  if talkSec = 0 ∧ termReason = "" ∧ statusName = "" ∧ disposition = "" ∧ callResult = "" then
    { dispId := DISP.CONNECTED, call_result := "Logged", source := "default" }
  else if talkSec > 0 then { dispId := DISP.CONNECTED, call_result := "Connected", source := "convoso" }
  else if ccNoAnswerTest combined then { dispId := DISP.NO_ANSWER, call_result := "No Answer", source := "convoso" }
  else if ccBusyTest combined then { dispId := DISP.BUSY, call_result := "Busy", source := "convoso" }
  else if ccLeftMessageTest combined then { dispId := DISP.LEFT_MESSAGE, call_result := "Left Message", source := "convoso" }
  else { dispId := DISP.CONNECTED, call_result := "Connected", source := "convoso" }

/-- Dedupe map entry (value stored under `firstDispositionSeen.set`,
server.js lines 493-496): insertion time in ms and the disposition id. -/
structure DedupEntry where
  ts : Nat
  disposition_id : String
deriving Repr, DecidableEq

/-- `firstDispositionSeen` (server.js line 71): a JS `Map` from dedupe keys
to entries, embedded as an association list with distinct keys. -/
abbrev DedupMap := List (String × DedupEntry)

/-- `FIRST_DISPOSITION_TTL_MS` (server.js line 72): 30 days. -/
def FIRST_DISPOSITION_TTL_MS : Nat := 30 * 24 * 60 * 60 * 1000

/-- `pruneFirstDispositionSeen` (server.js lines 74-79): delete every entry
with `now - ts > TTL` (lazy full-scan prune).  `Nat` subtraction agrees
with JS here: when `ts > now` the JS difference is negative, hence kept,
and the truncated `Nat` difference is `0`, hence also kept. -/
def pruneFirstDispositionSeen (now : Nat) (m : DedupMap) : DedupMap :=
  m.filter (fun kv => ¬(now - kv.2.ts > FIRST_DISPOSITION_TTL_MS))

/-- JS `Map.prototype.has`. -/
def mapHas (m : DedupMap) (k : String) : Bool :=
  m.any (fun kv => kv.1 = k)

/-- JS `Map.prototype.set`: overwrite the existing binding, else append. -/
def mapSet (k : String) (v : DedupEntry) (m : DedupMap) : DedupMap :=
  if mapHas m k then m.map (fun kv => if kv.1 = k then (k, v) else kv)
  else m ++ [(k, v)]

/-- Normalized request payload reaching `POST /convoso/disposition`
(the object produced by `parseConvosoBody`): each optional field is
`none` when the wire field was absent (`undefined`). -/
structure DispPayload where
  disposition : Option String
  disposition_name : Option String
  call_id : Option String
  lead_id : Option String
  call_start_time : Option String
  start_time : Option String
  created_at : Option String
  disposition_id : Option String
  id : Option String
  phone : String
  direction : Option String
  call_type : Option String
  recording_url : Option String
deriving Repr, DecidableEq

/-- The all-absent disposition payload (phone empty). -/
def DispPayload.empty : DispPayload :=
  ⟨none, none, none, none, none, none, none, none, none, "", none, none, none⟩

/-- Dedupe-key computation of `POST /convoso/disposition` (server.js lines
481-485): `disp_first_set:<callId>` when a truthy call id is present, else
`disp_first_set:<leadId>:<timestamp>` where the timestamp is the first
present of `call_start_time`/`start_time`/`created_at`, defaulting to the
receipt time `String(Date.now())`. -/
def dispDedupeKey (p : DispPayload) (now : Nat) : String :=
  let leadId := p.lead_id.getD ""
  let callStartTs := ((p.call_start_time <|> p.start_time <|> p.created_at)).getD ""
  let timestamp := if callStartTs = "" then toString now else callStartTs
  match p.call_id with
  | some c => if c = "" then "disp_first_set:" ++ leadId ++ ":" ++ timestamp
              else "disp_first_set:" ++ c
  | none => "disp_first_set:" ++ leadId ++ ":" ++ timestamp

/-- The atomic dedup-gate segment of the disposition handler (server.js
lines 487-496): prune, presence check, and — when absent — immediate
insert.  In the source this segment contains no `await`, so it executes
without interleaving relative to other event-loop turns; it is therefore
one atomic step here.  Returns `(deduped?, updated map)`. -/
def dedupGate (k : String) (now : Nat) (dispositionId : String) (m : DedupMap) :
    Bool × DedupMap :=
  let m1 := pruneFirstDispositionSeen now m
  if mapHas m1 k then (true, m1)
  else (false, mapSet k { ts := now, disposition_id := dispositionId } m1)

/-- Inline disposition-text → disposition-id mapping used verbatim by both
`POST /convoso/disposition` (server.js lines 509-513) and
`POST /convoso/disposition-set` (lines 559-563).  Note the first pattern is
`/no answer|na/i` with NO word boundary, unlike the call-completed
classifier's `/no answer|noanswer|na\b/i`. -/
def dispositionToDispId (disposition : String) : Nat :=
  if strContainsCI disposition "no answer" || strContainsCI disposition "na" then DISP.NO_ANSWER
  else if strContainsCI disposition "busy" then DISP.BUSY
  else if strContainsCI disposition "left" || strContainsCI disposition "vm" ||
      strContainsCI disposition "voicemail" || strContainsCI disposition "message" then DISP.LEFT_MESSAGE
  else DISP.CONNECTED

/-- Payload of a `forthCreateCall` write (`POST /v1/calls` body).
`call_result` is `none` on the disposition endpoints, which omit it. -/
structure ForthCallPayload where
  contactID : Nat
  created_at : String
  call_type : String
  call_disposition : Nat
  call_result : Option String
  notes : String
  duration : String
  event_id : Nat
  recording_url : Option String
deriving Repr, DecidableEq

/-- Result of one `POST /convoso/disposition` request: HTTP status, the
JSON flags of the response, and the CRM traffic performed on behalf of the
request (`crmLookups` counts `forthSearchContactByPhone` calls, `writes`
the `forthCreateCall` payloads). -/
structure DispResult where
  status : Nat
  ok : Bool
  created : Bool
  deduped : Bool
  skipped : Option String
  errMsg : Option String
  crmLookups : Nat
  writes : List ForthCallPayload
deriving Repr, DecidableEq

/-- `POST /convoso/disposition` handler (server.js lines 473-533), with the
two network collaborators abstracted: `contact` is the first candidate
returned by the Forth phone search (`search?.body?.response?.[0]?.id`) and
the `forthCreateCall` response is ignored by the source.  `now` is
`Date.now()` at receipt, `nowIso` the formatted fallback timestamp
`new Date().toISOString().slice(0,19).replace("T"," ")`. -/
def handleDisposition (p : DispPayload) (now : Nat) (nowIso : String)
    (contact : Option Nat) (m : DedupMap) : DispResult × DedupMap :=
  let disposition := trimStr ((p.disposition <|> p.disposition_name).getD "")
  if disposition = "" then
    ({ status := 200, ok := true, created := false, deduped := false,
       skipped := some "Disposition blank", errMsg := none, crmLookups := 0, writes := [] }, m)
  else
    let dedupeKey := dispDedupeKey p now
    let gate := dedupGate dedupeKey now ((p.disposition_id <|> p.id).getD "") m
    if gate.1 then
      ({ status := 200, ok := true, created := false, deduped := true,
         skipped := some "Disposition already processed", errMsg := none,
         crmLookups := 0, writes := [] }, gate.2)
    else
      let m2 := gate.2
      let phone := p.phone
      if phone = "" then
        ({ status := 400, ok := false, created := false, deduped := false,
           skipped := none, errMsg := some "Missing phone", crmLookups := 0, writes := [] }, m2)
      else
        match contact with
        | none =>
          ({ status := 200, ok := true, created := false, deduped := false,
             skipped := some "No matching contact in Forth", errMsg := none,
             crmLookups := 1, writes := [] }, m2)
        | some cid =>
          let direction := if strContainsCI ((jsOrStr p.direction (jsOrStr p.call_type (some "Incoming"))).getD "") "out"
            then "Outgoing" else "Incoming"
          let dispId := dispositionToDispId disposition
          let createdAt := (jsOrStr p.created_at (some nowIso)).getD ""
          let notes := "Convoso - Disposition: " ++ disposition ++ " | phone=" ++ phone
          let payload : ForthCallPayload :=
            { contactID := cid, created_at := createdAt, call_type := direction,
              call_disposition := dispId, call_result := none, notes := notes,
              duration := "00:00:00", event_id := 0,
              recording_url := match p.recording_url with
                | some r => if r = "" then none else some r
                | none => none }
          ({ status := 200, ok := true, created := true, deduped := false,
             skipped := none, errMsg := none, crmLookups := 1, writes := [payload] }, m2)

/-- Raw request body fields read by `POST /convoso/disposition-set`
(server.js lines 540-583), which reads `req.body` directly. -/
structure DispSetBody where
  phone : Option String
  phone_number : Option String
  caller_id : Option String
  lead_phone : Option String
  direction : Option String
  call_type : Option String
  disposition : Option String
  disposition_name : Option String
  created_at : Option String
  recording_url : Option String
deriving Repr, DecidableEq

/-- `POST /convoso/disposition-set` handler (server.js lines 540-583):
no dedup gate; phone alias chain with `||`; disposition text defaults to
`"Connected"`; same inline disposition mapping as the other endpoint. -/
def handleDispositionSet (b : DispSetBody) (nowIso : String)
    (contact : Option Nat) : DispResult :=
  let rawPhone := jsOrStr b.phone (jsOrStr b.phone_number (jsOrStr b.caller_id b.lead_phone))
  let phone := normalizePhone rawPhone
  if phone = "" then
    { status := 400, ok := false, created := false, deduped := false,
      skipped := none, errMsg := some "Missing phone", crmLookups := 0, writes := [] }
  else
    match contact with
    | none =>
      { status := 200, ok := true, created := false, deduped := false,
        skipped := some "No matching contact in Forth", errMsg := none,
        crmLookups := 1, writes := [] }
    | some cid =>
      let direction := if strContainsCI ((jsOrStr b.direction (jsOrStr b.call_type (some "Incoming"))).getD "") "out"
        then "Outgoing" else "Incoming"
      let convosoDisp := trimStr ((jsOrStr b.disposition (jsOrStr b.disposition_name (some "Connected"))).getD "")
      let dispId := dispositionToDispId convosoDisp
      let createdAt := (jsOrStr b.created_at (some nowIso)).getD ""
      let notes := "Convoso - Disposition Set: " ++ convosoDisp ++ " | phone=" ++ phone
      let payload : ForthCallPayload :=
        { contactID := cid, created_at := createdAt, call_type := direction,
          call_disposition := dispId, call_result := none, notes := notes,
          duration := "00:00:00", event_id := 0,
          recording_url := match b.recording_url with
            | some r => if r = "" then none else some r
            | none => none }
      { status := 200, ok := true, created := true, deduped := false,
        skipped := none, errMsg := none, crmLookups := 1, writes := [payload] }

/-- `FORTH_TOKEN_BUFFER_MS` (server.js line 27): 6 hours. -/
def FORTH_TOKEN_BUFFER_MS : Int := 6 * 60 * 60 * 1000

/-- `FORTH_TOKEN_DEFAULT_TTL_MS` (server.js line 28): 9 days. -/
def FORTH_TOKEN_DEFAULT_TTL_MS : Int := 9 * 24 * 60 * 60 * 1000

/-- The mutable token cache (`forthAccessToken`, `forthTokenExpiresAt`,
server.js lines 23-24).  Times are `Int` ms because the source compares
`Date.now() < forthTokenExpiresAt - BUFFER`, which can go negative. -/
structure TokenState where
  token : Option String
  expiresAt : Int
deriving Repr, DecidableEq

/-- Upstream outcome of the single auth `fetch` inside
`refreshForthAccessToken`: a thrown network/JSON error, or an HTTP response
with `ok`, the extracted `access_token` field (`none` when the response
carries no token under any of the four recognized keys), and the optional
`expires_in` TTL in seconds. -/
inductive RefreshOutcome where
  | netError (msg : String)
  | http (ok : Bool) (tok : Option String) (expiresIn : Option Nat)
deriving Repr, DecidableEq

/-- State-passing embedding of one completed run of
`refreshForthAccessToken` (server.js lines 168-206): on success the cache
is replaced with the new token and an expiry of
`now + min(expires_in * 1000, 9 days)` (default 9 days when `expires_in`
is absent — or `0`, which is falsy in JS); on any failure the previous
cache is left untouched and the error is rethrown to the awaiters. -/
def refreshForthAccessToken (credsConfigured : Bool) (o : RefreshOutcome)
    (now : Int) (s : TokenState) : TokenState × Except String String :=
  if ¬credsConfigured then (s, .error "FORTH_KEY_ID or FORTH_API_SECRET missing")
  else
    match o with
    | .netError msg => (s, .error msg)
    | .http ok tok expiresIn =>
      if ¬ok then (s, .error "HTTP error")
      else
        match tok with
        | none => (s, .error "No access_token in response")
        | some t =>
          let expiresAt : Int :=
            match expiresIn with
            | some e =>
              if e = 0 then now + FORTH_TOKEN_DEFAULT_TTL_MS
              else now + min ((e : Int) * 1000) FORTH_TOKEN_DEFAULT_TTL_MS
            | none => now + FORTH_TOKEN_DEFAULT_TTL_MS
          ({ token := some t, expiresAt := expiresAt }, .ok t)

/-- `getForthApiKey` (server.js lines 208-220), state-passing form.  The
third component records whether a refresh was performed.  `fallback` is
`process.env.FORTH_API_KEY` (the static token).  The cached token is
returned only when it is truthy (non-empty) AND
`now < expiresAt - 6 hours`. -/
def getForthApiKey (credsConfigured : Bool) (fallback : Option String)
    (o : RefreshOutcome) (now : Int) (s : TokenState) :
    TokenState × Except String String × Bool :=
  if ¬credsConfigured then (s, .ok ((jsOrStr fallback (some "")).getD ""), false)
  else
    match s.token with
    | some t =>
      if t ≠ "" ∧ now < s.expiresAt - FORTH_TOKEN_BUFFER_MS then (s, .ok t, false)
      else
        let r := refreshForthAccessToken credsConfigured o now s
        (r.1, r.2, true)
    | none =>
      let r := refreshForthAccessToken credsConfigured o now s
      (r.1, r.2, true)

/-- `forthFetch` (server.js lines 222-235), with the wrapped endpoint
abstracted as `endpoint : Nat → Nat` mapping the index of the upstream
call (0 = first attempt, 1 = retry) to its HTTP status.  Returns the list
of api keys used (one per upstream call issued, in order), the final
result (`.error` when a refresh threw), and the final token cache.  On a
401/403 first response the cache is cleared, one refresh is forced, and
the call is retried exactly once with the new key; the retry's response is
returned unconditionally. -/
def forthFetch (credsConfigured : Bool) (fallback : Option String)
    (o : RefreshOutcome) (now : Int) (s : TokenState) (endpoint : Nat → Nat) :
    List String × Except String Nat × TokenState :=
  let acq := getForthApiKey credsConfigured fallback o now s
  match acq.2.1 with
  | .error e => ([], .error e, acq.1)
  | .ok apiKey =>
    let st0 := endpoint 0
    if st0 = 401 ∨ st0 = 403 then
      let cleared : TokenState := { token := none, expiresAt := 0 }
      let ref := refreshForthAccessToken credsConfigured o now cleared
      match ref.2 with
      | .error e => ([apiKey], .error e, ref.1)
      | .ok newKey => ([apiKey, newKey], .ok (endpoint 1), ref.1)
    else ([apiKey], .ok st0, acq.1)

/-- Event-loop model of the single-flight refresh (`forthRefreshPromise`,
server.js lines 25 and 168-206).  `refreshPromise` records whether a
refresh promise is currently registered, `upstreamStarted` counts upstream
auth requests ever started, `awaiters` the callers parked on the current
promise. -/
structure FlightState where
  refreshPromise : Bool
  upstreamStarted : Nat
  awaiters : List Nat
deriving Repr, DecidableEq

/-- The initial flight state: no refresh in flight. -/
def FlightState.idle : FlightState :=
  { refreshPromise := false, upstreamStarted := 0, awaiters := [] }

/-- The synchronous prefix of `refreshForthAccessToken` as reached from
`getForthApiKey` when no valid cached token exists (server.js lines
168-170 and 218-219): in one event-loop turn — there is no `await` between
the `forthRefreshPromise` null check and its assignment, because an async
IIFE runs synchronously up to its first `await` — the caller either joins
the in-flight promise or registers a new promise, which starts exactly one
upstream auth request. -/
def acquireStart (caller : Nat) (s : FlightState) : FlightState :=
  if s.refreshPromise then { s with awaiters := s.awaiters ++ [caller] }
  else { refreshPromise := true, upstreamStarted := s.upstreamStarted + 1,
         awaiters := s.awaiters ++ [caller] }

/-- Settlement of the in-flight refresh promise (the `finally` at
server.js lines 196-198 plus promise resolution): the promise slot is
cleared and every parked awaiter observes the one settled `result`. -/
def refreshSettle (result : Except String String) (s : FlightState) :
    FlightState × List (Nat × Except String String) :=
  ({ refreshPromise := false, upstreamStarted := s.upstreamStarted, awaiters := [] },
   s.awaiters.map (fun c => (c, result)))

/-- Folding `acquireStart` over a list of concurrently arriving callers. -/
def acquireAll (callers : List Nat) (s : FlightState) : FlightState :=
  callers.foldl (fun st c => acquireStart c st) s

/-- One Convoso call-log record as read by the enrichment and forwarding
code (the fields of `DialerLogEntry` the source accesses). -/
structure ConvosoLogEntry where
  id : Option String
  call_type : Option String
  agent_comment : Option String
  status_name : Option String
  term_reason : Option String
  call_length : Option Nat
  call_length_seconds : Option Nat
  call_date : Option String
  call_date_time : Option String
  recording_url : Option String
deriving Repr, DecidableEq

/-- The all-absent log entry. -/
def ConvosoLogEntry.empty : ConvosoLogEntry :=
  ⟨none, none, none, none, none, none, none, none, none, none⟩

/-- Upstream outcome of one attempt's `fetch` + `r.json()` inside
`fetchConvosoCallLog`: a thrown error (network failure or the 15s abort),
or a parsed response with `r.ok`, the JS truthiness of `j.data` and
`j.logs` (note `[]` is truthy), and `some entries` exactly when `j` itself
is an array. -/
inductive LogFetchOutcome where
  | netError
  | http (ok : Bool) (dataTruthy logsTruthy : Bool) (asArray : Option (List ConvosoLogEntry))
deriving Repr, DecidableEq

/-- The `list` extraction of server.js line 293:
`const list = j?.data ?? j?.logs ?? Array.isArray(j) ? j : []`.
Because `??` binds tighter than `?:`, this is
`(j?.data ?? j?.logs ?? Array.isArray(j)) ? j : []` — when the condition
is truthy, `list` is the WHOLE json value `j`, which passes the subsequent
`Array.isArray(list) && list.length > 0` check only when `j` itself is a
non-empty array.  An object response such as `{"data": [entry]}` therefore
never yields an entry. -/
def extractLogList (dataTruthy logsTruthy : Bool) (asArray : Option (List ConvosoLogEntry)) :
    List ConvosoLogEntry :=
  if dataTruthy || logsTruthy || asArray.isSome then
    match asArray with
    | some l => l
    | none => []
  else []

/-- The backoff table `delays = [0, 3000, 5000]` (server.js line 280). -/
def logRetryDelays : List Nat := [0, 3000, 5000]

/-- The delay awaited before attempt number `attempt` (server.js lines
283-285): nothing before attempt 1, `delays[attempt-1]` otherwise. -/
def delayBefore (attempt : Nat) : Nat :=
  if attempt > 1 then (logRetryDelays.getD (attempt - 1) 0) else 0

/-- The retry loop of `fetchConvosoCallLog` (server.js lines 282-306),
parameterized by the per-attempt upstream outcome.  Returns the found
entry paired with the attempt number it was found on (the `_attempt` tag),
or `none`, together with the list of backoff delays actually awaited.  A
thrown error or a non-2xx response aborts the whole loop with `none`. -/
def fetchLogLoop (resp : Nat → LogFetchOutcome) (attempt : Nat) :
    Nat → Option (ConvosoLogEntry × Nat) × List Nat
  | 0 => (none, [])
  | fuel + 1 =>
    let waited := if attempt > 1 then [delayBefore attempt] else []
    match resp attempt with
    | .netError => (none, waited)
    | .http ok dataTruthy logsTruthy asArray =>
      if ¬ok then (none, waited)
      else
        match extractLogList dataTruthy logsTruthy asArray with
        | e :: _ => (some (e, attempt), waited)
        | [] =>
          let rest := fetchLogLoop resp (attempt + 1) fuel
          (rest.1, waited ++ rest.2)

/-- `fetchConvosoCallLog` (server.js lines 259-313): guard on the Convoso
auth token and the phone, then up to 3 attempts of the retry loop.  Every
failure path yields `none`; nothing is ever propagated to the caller. -/
def fetchConvosoCallLog (authTokenPresent : Bool) (phone : String)
    (resp : Nat → LogFetchOutcome) : Option (ConvosoLogEntry × Nat) × List Nat :=
  if ¬authTokenPresent then (none, [])
  else if phone = "" then (none, [])
  else fetchLogLoop resp 1 3

/-- `convosoCallTypeToForth` (server.js lines 318-323): uppercase + trim,
then `INBOUND → Incoming`, `OUTBOUND`/`MANUAL → Outgoing`, else `null`. -/
def convosoCallTypeToForth (callType : Option String) : Option String :=
  let t := trimStr (String.mk (upperList (callType.getD "").data))
  if t = "INBOUND" then some "Incoming"
  else if t = "OUTBOUND" ∨ t = "MANUAL" then some "Outgoing"
  else none

/-- The `replace(/^Direction:\s*[^|]*\s*\|\s*/i, "")` step of
`applyDirectionPrefix` (server.js line 330): when the text starts with
`Direction:` (case-insensitively) and a `|` occurs before any other `|`
context, everything through that first `|` and the following whitespace is
removed; otherwise the text is unchanged (the regex needs the literal `|`
to match). -/
def stripDirectionLabel (s : String) : String :=
  if "direction:".data.isPrefixOf (lowerList s.data) then
    match (s.data.drop 10).dropWhile (fun c => c ≠ '|') with
    | '|' :: rest => String.mk (rest.dropWhile Char.isWhitespace)
    | _ => s
  else s

/-- `applyDirectionPrefix` (server.js lines 329-337): strip any existing
direction label, trim, and prepend the label for the given direction
(`MISSING` text when the direction is `null`). -/
def applyDirectionLabel (notesBody : Option String) (direction : Option String) : String :=
  let stripped := trimStr (stripDirectionLabel (notesBody.getD ""))
  let dirLabel :=
    if direction = some "Incoming" then "Direction: Incoming | "
    else if direction = some "Outgoing" then "Direction: Outgoing | "
    else "Direction: MISSING (Convoso did not send call_type) | "
  dirLabel ++ stripped

/-- The fixed fallback note sentence of the call-completed handler. -/
def fallbackNote : String :=
  "No Agent Note - Convoso call logged automatically (Call Completed)."

/-- The diagnostic marker opening the contact note written on the
missing-direction degraded path (server.js line 429). -/
def directionMissingMarker : String :=
  "⚠️ Direction MISSING (Convoso did not send call_type). Call was NOT logged as a Call in Forth because call_type is required."

/-- Normalized request payload reaching `POST /convoso/call-completed`
(the object produced by `normalizeIncomingPayload`): every field the
handler reads.  `params_notes` models `convoso.params?.notes`. -/
structure CCPayload where
  phone : String
  call_type : Option String
  call_log_id : Option String
  notes : Option String
  params_notes : Option String
  note : Option String
  comments : Option String
  call_notes : Option String
  created_at : Option String
  call_end_time : Option String
  duration : Option Nat
  duration_seconds : Option Nat
  recording_url : Option String
  term_reason : Option String
  term_reason_id : Option String
  status_name : Option String
  status : Option String
  disposition : Option String
  disposition_name : Option String
  call_result : Option String
  talk_time : Option Nat
  talk_seconds : Option Nat
deriving Repr, DecidableEq

/-- The all-absent call-completed payload (phone empty). -/
def CCPayload.empty : CCPayload :=
  ⟨"", none, none, none, none, none, none, none, none, none, none, none, none,
   none, none, none, none, none, none, none, none, none⟩

/-- Projection of the payload onto the fields `mapCallCompletedOutcome`
reads (passing the `convoso` object through unchanged). -/
def CCPayload.toOutcomeFields (c : CCPayload) : OutcomeFields :=
  { term_reason := c.term_reason, term_reason_id := c.term_reason_id,
    status_name := c.status_name, status := c.status,
    disposition := c.disposition, disposition_name := c.disposition_name,
    call_result := c.call_result, talk_time := c.talk_time,
    talk_seconds := c.talk_seconds }

/-- One CRM write issued by the call-completed handler: either a
`forthCreateCall` or a `forthCreateContactNote`. -/
inductive ForthWrite where
  | call (p : ForthCallPayload)
  | note (contactId : Nat) (content : String)
deriving Repr, DecidableEq

/-- Result of one `POST /convoso/call-completed` request: HTTP status, the
response flags, and every CRM write issued for it (`crmLookups` counts
contact searches). -/
structure CCResult where
  status : Nat
  ok : Bool
  skipped : Option String
  errMsg : Option String
  crmLookups : Nat
  writes : List ForthWrite
deriving Repr, DecidableEq

/-- `POST /convoso/call-completed` handler (server.js lines 368-468), with
the three collaborators abstracted: `convosoLog` is the enrichment result
(`fetchConvosoCallLog`'s entry with its `_attempt` tag), `contact` the
first candidate of the Forth phone search, `nowIso` the formatted receipt
time used as the last-resort `created_at`. -/
def handleCallCompleted (convoso : CCPayload) (convosoLog : Option (ConvosoLogEntry × Nat))
    (contact : Option Nat) (nowIso : String) : CCResult :=
  let phone := convoso.phone
  if phone = "" then
    { status := 400, ok := false, skipped := none, errMsg := some "Missing phone",
      crmLookups := 0, writes := [] }
  else
    let direction :=
      match convosoLog with
      | some (lg, _) => convosoCallTypeToForth lg.call_type
      | none => convosoCallTypeToForth convoso.call_type
    let notes :=
      match convosoLog with
      | some (lg, _) =>
        let agentComment := trimStr (lg.agent_comment.getD "")
        let baseNote := if agentComment = "" then fallbackNote else agentComment
        let logId := lg.id.getD ""
        let statusName := trimStr (lg.status_name.getD "")
        let termReason := trimStr (lg.term_reason.getD "")
        let callLength :=
          match lg.call_length <|> lg.call_length_seconds with
          | some n => toString n
          | none => ""
        let notesBody := baseNote ++ " | ConvosoLogID:" ++ logId ++ " | Status:" ++ statusName
          ++ " | Term:" ++ termReason ++ " | Len:" ++ callLength ++ "s"
        applyDirectionLabel (some notesBody) direction
      | none =>
        let rawNote := trimStr ((convoso.notes <|> convoso.params_notes <|> convoso.note
          <|> convoso.comments <|> convoso.call_notes).getD "")
        let notesBody := if rawNote = "" then fallbackNote else rawNote
        applyDirectionLabel (some notesBody) direction
    let outcome :=
      match convosoLog with
      | some (lg, _) =>
        mapCallCompletedOutcome { convoso.toOutcomeFields with
          term_reason := lg.term_reason, status_name := lg.status_name,
          talk_time := lg.call_length <|> lg.call_length_seconds }
      | none => mapCallCompletedOutcome convoso.toOutcomeFields
    let dispId := outcome.dispId
    let callResult := outcome.call_result
    match contact with
    | none =>
      { status := 200, ok := true, skipped := some "No matching contact in Forth",
        errMsg := none, crmLookups := 1, writes := [] }
    | some cid =>
      let directionMissing := direction.isNone
      if directionMissing then
        let callLogId := (convoso.call_log_id <|> (convosoLog.bind (fun le => le.1.id))).getD ""
        let callDate := (convoso.created_at <|> convoso.call_end_time
          <|> (convosoLog.bind (fun le => le.1.call_date))
          <|> (convosoLog.bind (fun le => le.1.call_date_time))).getD ""
        let durationSec := ((convosoLog.bind (fun le => le.1.call_length))
          <|> (convosoLog.bind (fun le => le.1.call_length_seconds))
          <|> convoso.duration <|> convoso.duration_seconds).getD 0
        let rawNote := trimStr ((convoso.notes <|> convoso.params_notes <|> convoso.note
          <|> convoso.comments <|> convoso.call_notes
          <|> (convosoLog.bind (fun le => le.1.agent_comment))).getD "")
        let agentNote := if rawNote = "" then fallbackNote else rawNote
        let parts := [directionMissingMarker,
          if callLogId ≠ "" then "call_log_id:" ++ callLogId else "",
          if callDate ≠ "" then "call_date:" ++ callDate else "",
          if durationSec ≠ 0 then "duration:" ++ toString durationSec ++ "s" else "",
          if phone ≠ "" then "phone_number:" ++ phone else ""].filter (fun s => s ≠ "")
        let noteContent := joinSep " | " parts ++ " | " ++ agentNote
        { status := 200, ok := true, skipped := none, errMsg := none,
          crmLookups := 1, writes := [ForthWrite.note cid noteContent] }
      else
        let createdAt := (jsOrStr convoso.created_at (jsOrStr convoso.call_end_time
          (jsOrStr ((convosoLog.bind (fun le => le.1.call_date))
            <|> (convosoLog.bind (fun le => le.1.call_date_time))) (some nowIso)))).getD ""
        let durationSec := ((convosoLog.bind (fun le => le.1.call_length))
          <|> (convosoLog.bind (fun le => le.1.call_length_seconds))
          <|> convoso.duration <|> convoso.duration_seconds).getD 0
        let duration := pad2 (durationSec / 3600) ++ ":" ++ pad2 ((durationSec % 3600) / 60)
          ++ ":" ++ pad2 (durationSec % 60)
        let logRecording := convosoLog.bind (fun le => le.1.recording_url)
        let recordingTruthy : Bool :=
          match convoso.recording_url <|> logRecording with
          | some r => r ≠ ""
          | none => false
        let recordingField :=
          if recordingTruthy then jsOrStr convoso.recording_url logRecording
          else none
        let payload : ForthCallPayload :=
          { contactID := cid, created_at := createdAt,
            call_type := direction.getD "", call_disposition := dispId,
            call_result := some callResult, notes := notes, duration := duration,
            event_id := 0, recording_url := recordingField }
        { status := 200, ok := true, skipped := none, errMsg := none,
          crmLookups := 1, writes := [ForthWrite.call payload] }

/-- A write is a contact note whose content contains the
`Direction MISSING` diagnostic marker. -/
def writeHasMarker : ForthWrite → Bool
  | .note _ c => strContains c.data "Direction MISSING".data
  | .call _ => false

/-- A write is a contact note targeted at contact `cid`. -/
def isNoteFor (cid : Nat) : ForthWrite → Bool
  | .note c _ => c = cid
  | .call _ => false

/-- A write is a call-record write. -/
def isCallWrite : ForthWrite → Bool
  | .call _ => true
  | .note _ _ => false

-- ====================================================================
-- Theorems
-- ====================================================================

theorem strContains_nil_needle (t : List Char) : strContains t [] = true := by
  cases t <;> simp [strContains, List.isPrefixOf]

theorem isPrefixOf_extend (n u t : List Char) (h : n.isPrefixOf u = true) :
    n.isPrefixOf (u ++ t) = true := by
  induction n generalizing u with
  | nil => simp [List.isPrefixOf]
  | cons a n ih =>
    cases u with
    | nil => simp [List.isPrefixOf] at h
    | cons b u =>
      simp only [List.cons_append, List.isPrefixOf_cons₂_self] at *
      simp only [List.isPrefixOf, Bool.and_eq_true] at h ⊢
      exact ⟨h.1, ih u h.2⟩

theorem strContains_extend (s t n : List Char) (h : strContains s n = true) :
    strContains (s ++ t) n = true := by
  induction s with
  | nil =>
    simp only [strContains, List.isEmpty_iff] at h
    subst h
    simpa using strContains_nil_needle t
  | cons c s ih =>
    simp only [strContains, Bool.or_eq_true] at h ⊢
    rcases h with h | h
    · exact Or.inl (isPrefixOf_extend n (c :: s) t h)
    · exact Or.inr (ih h)

/-- C6: `normalizePhone` strips all non-digit characters; an 11-digit
result starting with `1` loses its leading digit; absent or empty input
yields `""`; the three quoted inputs normalize to `"4155550100"` and `""`
normalizes to `""`.  The function is a total Lean function, so no input
makes it fail. -/
theorem normalizePhone_contract :
    (∀ raw : Option String, normalizePhone raw = normalizePhoneSpec raw) ∧
    normalizePhone (some "1-(415) 555-0100") = "4155550100" ∧
    normalizePhone (some "4155550100") = "4155550100" ∧
    normalizePhone (some "14155550100") = "4155550100" ∧
    normalizePhone (some "") = "" ∧
    normalizePhone none = "" := by
  refine ⟨?_, by decide, by decide, by decide, by decide, rfl⟩
  intro raw
  match raw with
  | none => rfl
  | some s =>
    by_cases h : s = ""
    · subst h; rfl
    · simp [normalizePhone, normalizePhoneSpec, h]

/-- C5: the outcome classifier is exactly the claimed first-match-wins
rule list — (1) no signal at all → `Logged`/default; (2) positive talk
time → `Connected` regardless of text; (3) `no answer|noanswer|na\b` →
`No Answer`; (4) `busy` → `Busy`; (5) `left|vm|voicemail|message` →
`Left Message`; (6) otherwise `Connected` — together with the spec's four
concrete classification examples. -/
theorem mapCallCompletedOutcome_contract :
    (∀ c : OutcomeFields, mapCallCompletedOutcome c = outcomeSpec c) ∧
    mapCallCompletedOutcome { OutcomeFields.empty with talk_time := some 120 } =
      { dispId := DISP.CONNECTED, call_result := "Connected", source := "convoso" } ∧
    mapCallCompletedOutcome { OutcomeFields.empty with talk_time := some 0, disposition := some "No Answer - NA" } =
      { dispId := DISP.NO_ANSWER, call_result := "No Answer", source := "convoso" } ∧
    mapCallCompletedOutcome OutcomeFields.empty =
      { dispId := DISP.CONNECTED, call_result := "Logged", source := "default" } ∧
    mapCallCompletedOutcome { OutcomeFields.empty with talk_time := some 0, disposition := some "Left VM" } =
      { dispId := DISP.LEFT_MESSAGE, call_result := "Left Message", source := "convoso" } := by
  refine ⟨?_, by decide, by decide, by decide, by decide⟩
  intro c
  simp only [mapCallCompletedOutcome, outcomeSpec]
  by_cases h0 : (c.talk_time <|> c.talk_seconds).getD 0 = 0 <;>
    by_cases h1 : trimStr ((c.term_reason <|> c.term_reason_id).getD "") = "" <;>
    by_cases h2 : trimStr ((c.status_name <|> c.status).getD "") = "" <;>
    by_cases h3 : trimStr ((c.disposition <|> c.disposition_name).getD "") = "" <;>
    by_cases h4 : trimStr (c.call_result.getD "") = "" <;>
    simp [h0, h1, h2, h3, h4, Nat.pos_of_ne_zero]

/-- C10: the disposition endpoints map the disposition text with
`/no answer|na/i` — no word boundary — so every disposition containing the
substring `na` (case-insensitively), e.g. `"Final"`, maps to
`NO_ANSWER = 1`, and this takes precedence over the busy and
left/vm/voicemail/message rules; both endpoint handlers forward
`call_disposition = 1` for `"Final"`; the call-completion classifier, by
contrast, bounds the bare `na` with a trailing word boundary and
classifies `"Final"` as `CONNECTED`. -/
theorem disposition_na_no_word_boundary :
    (∀ s : String, strContains (lowerList s.data) "na".data = true →
      dispositionToDispId s = DISP.NO_ANSWER) ∧
    dispositionToDispId "Final" = DISP.NO_ANSWER ∧
    dispositionToDispId "Busy na" = DISP.NO_ANSWER ∧
    dispositionToDispId "left voicemail na" = DISP.NO_ANSWER ∧
    ((handleDisposition { DispPayload.empty with disposition := some "Final", call_id := some "C77", lead_id := some "L1", phone := "4155550100" } 1000 "2026-01-01 00:00:00" (some 7) []).1.writes.map
      (fun w => w.call_disposition)) = [1] ∧
    ((handleDispositionSet { phone := some "4155550100", phone_number := none, caller_id := none, lead_phone := none, direction := none, call_type := none, disposition := some "Final", disposition_name := none, created_at := none, recording_url := none } "2026-01-01 00:00:00" (some 7)).writes.map
      (fun w => w.call_disposition)) = [1] ∧
    (mapCallCompletedOutcome { OutcomeFields.empty with disposition := some "Final" }).dispId = DISP.CONNECTED := by
  refine ⟨?_, by decide, by decide, by decide, by decide, by decide, by decide⟩
  intro s h
  simp [dispositionToDispId, strContainsCI, h]

/-- Witness for `disposition_na_no_word_boundary`: the quantified rule
applied at the concrete disposition `"Unavailable"`. -/
theorem disposition_na_no_word_boundary_witness :
    dispositionToDispId "Unavailable" = DISP.NO_ANSWER :=
  disposition_na_no_word_boundary.1 "Unavailable" (by decide)

theorem fetchLogLoop_tag_bounds (resp : Nat → LogFetchOutcome) (attempt fuel : Nat)
    (e : ConvosoLogEntry) (k : Nat)
    (h : (fetchLogLoop resp attempt fuel).1 = some (e, k)) :
    attempt ≤ k ∧ k < attempt + fuel := by
  induction fuel generalizing attempt with
  | zero => simp [fetchLogLoop] at h
  | succ fuel ih =>
    cases hr : resp attempt with
    | netError => simp [fetchLogLoop, hr] at h
    | http ok dataTruthy logsTruthy asArray =>
      cases ok with
      | false => simp [fetchLogLoop, hr] at h
      | true =>
        cases hl : extractLogList dataTruthy logsTruthy asArray with
        | nil =>
          simp [fetchLogLoop, hr, hl] at h
          have := ih (attempt + 1) h
          omega
        | cons e0 rest =>
          simp [fetchLogLoop, hr, hl] at h
          omega

/-- C3 (code bug at server.js line 293): the correlator runs at most 3
attempts with backoffs 0/3000/5000 ms before attempts 1/2/3, converts
network errors, non-2xx responses and exhausted retries to `null`, and
tags a found entry with its attempt number — but, because `??` binds
tighter than `?:` in `j?.data ?? j?.logs ?? Array.isArray(j) ? j : []`, a
`200` response shaped `{"data": [entry]}` (a non-empty result set) is
treated as no result: only a bare-array response body ever yields an
entry. -/
theorem fetchConvosoCallLog_behavior :
    fetchConvosoCallLog true "4155550100" (fun _ => .http true true false none) =
      (none, [3000, 5000]) ∧
    fetchConvosoCallLog true "4155550100"
      (fun k => if k = 3 then .http true false false (some [ConvosoLogEntry.empty])
                else .http true false false (some [])) =
      (some (ConvosoLogEntry.empty, 3), [3000, 5000]) ∧
    fetchConvosoCallLog true "4155550100"
      (fun k => if k = 1 then .http true false false (some [ConvosoLogEntry.empty])
                else .netError) =
      (some (ConvosoLogEntry.empty, 1), []) ∧
    fetchConvosoCallLog true "4155550100" (fun _ => .http true false false (some [])) =
      (none, [3000, 5000]) ∧
    fetchConvosoCallLog true "4155550100" (fun _ => .netError) = (none, []) ∧
    fetchConvosoCallLog true "4155550100" (fun _ => .http false false false none) =
      (none, []) ∧
    delayBefore 1 = 0 ∧ delayBefore 2 = 3000 ∧ delayBefore 3 = 5000 ∧
    (∀ resp : Nat → LogFetchOutcome,
      match (fetchConvosoCallLog true "4155550100" resp).1 with
      | none => True
      | some (_, k) => 1 ≤ k ∧ k ≤ 3) := by
  refine ⟨by decide, by decide, by decide, by decide, by decide, by decide,
    by decide, by decide, by decide, ?_⟩
  intro resp
  cases hx : (fetchConvosoCallLog true "4155550100" resp).1 with
  | none => trivial
  | some ek =>
    obtain ⟨e, k⟩ := ek
    have hx2 : (fetchLogLoop resp 1 3).1 = some (e, k) := hx
    have := fetchLogLoop_tag_bounds resp 1 3 e k hx2
    omega

theorem acquireAll_inFlight (callers : List Nat) (s : FlightState)
    (h : s.refreshPromise = true) :
    acquireAll callers s =
      { s with awaiters := s.awaiters ++ callers } := by
  induction callers generalizing s with
  | nil => simp [acquireAll]
  | cons c cs ih =>
    simp only [acquireAll, List.foldl_cons]
    rw [show (acquireStart c s) = { s with awaiters := s.awaiters ++ [c] } by
      simp [acquireStart, h]]
    have := ih { s with awaiters := s.awaiters ++ [c] } (by simpa using h)
    simp only [acquireAll] at this
    rw [this]
    simp

/-- C1: for any non-empty list of callers that all reach the refresh path
while no valid cached token exists, the event-loop model of
`refreshForthAccessToken` starts exactly one upstream refresh request —
every caller after the first joins the in-flight promise — and when that
one promise settles with result `r`, every caller observes the same `r`
(the same token on success, the same error on failure). -/
theorem singleFlight_refresh (callers : List Nat) (h : callers ≠ [])
    (r : Except String String) :
    (acquireAll callers FlightState.idle).upstreamStarted = 1 ∧
    (acquireAll callers FlightState.idle).refreshPromise = true ∧
    (refreshSettle r (acquireAll callers FlightState.idle)).2 =
      callers.map (fun c => (c, r)) ∧
    (refreshSettle r (acquireAll callers FlightState.idle)).1.refreshPromise = false := by
  cases callers with
  | nil => exact absurd rfl h
  | cons c cs =>
    have hstep : acquireStart c FlightState.idle =
        { refreshPromise := true, upstreamStarted := 1, awaiters := [c] } := by
      simp [acquireStart, FlightState.idle]
    have hall : acquireAll (c :: cs) FlightState.idle =
        { refreshPromise := true, upstreamStarted := 1, awaiters := c :: cs } := by
      simp only [acquireAll, List.foldl_cons]
      rw [hstep]
      have := acquireAll_inFlight cs { refreshPromise := true, upstreamStarted := 1, awaiters := [c] } rfl
      simp only [acquireAll] at this
      rw [this]
      simp
    rw [hall]
    refine ⟨rfl, rfl, ?_, rfl⟩
    simp [refreshSettle]

/-- Witness for `singleFlight_refresh`: three concurrent callers, a
successful refresh — one upstream request, all three observe the token. -/
theorem singleFlight_refresh_witness :
    (acquireAll [10, 11, 12] FlightState.idle).upstreamStarted = 1 ∧
    (acquireAll [10, 11, 12] FlightState.idle).refreshPromise = true ∧
    (refreshSettle (.ok "tok") (acquireAll [10, 11, 12] FlightState.idle)).2 =
      [10, 11, 12].map (fun c => (c, Except.ok "tok")) ∧
    (refreshSettle (.ok "tok") (acquireAll [10, 11, 12] FlightState.idle)).1.refreshPromise = false :=
  singleFlight_refresh [10, 11, 12] (by decide) (.ok "tok")

theorem mapHas_prune_of_recent (m : DedupMap) (k : String) (e : DedupEntry) (t2 : Nat)
    (hmem : (k, e) ∈ m) (h : t2 - e.ts ≤ FIRST_DISPOSITION_TTL_MS) :
    mapHas (pruneFirstDispositionSeen t2 m) k = true := by
  simp only [mapHas, pruneFirstDispositionSeen, List.any_eq_true]
  refine ⟨(k, e), List.mem_filter.2 ⟨hmem, ?_⟩, by simp⟩
  simp only [decide_eq_true_eq, gt_iff_lt, Nat.not_lt]
  exact h

theorem handleDisposition_gate_inserts (p : DispPayload) (t : Nat) (iso : String)
    (contact : Option Nat) (m : DedupMap)
    (hd : trimStr ((p.disposition <|> p.disposition_name).getD "") ≠ "")
    (hfresh : mapHas (pruneFirstDispositionSeen t m) (dispDedupeKey p t) = false) :
    (handleDisposition p t iso contact m).2 =
      pruneFirstDispositionSeen t m ++
        [(dispDedupeKey p t, { ts := t, disposition_id := (p.disposition_id <|> p.id).getD "" })] := by
  by_cases hp : p.phone = "" <;> cases contact <;>
    simp [handleDisposition, dedupGate, mapSet, hd, hfresh, hp]

theorem handleDisposition_dedup_hit (q : DispPayload) (t2 : Nat) (iso : String)
    (c : Option Nat) (m : DedupMap)
    (hd : trimStr ((q.disposition <|> q.disposition_name).getD "") ≠ "")
    (hhas : mapHas (pruneFirstDispositionSeen t2 m) (dispDedupeKey q t2) = true) :
    (handleDisposition q t2 iso c m).1 =
      { status := 200, ok := true, created := false, deduped := true,
        skipped := some "Disposition already processed", errMsg := none,
        crmLookups := 0, writes := [] } := by
  simp [handleDisposition, dedupGate, hd, hhas]

/-- C2: two disposition events with the same dedupe key within 30 days —
the first (with a resolvable phone and a matching contact) is processed
and forwarded; the second short-circuits as a duplicate skip with zero CRM
lookups and zero CRM writes.  The gate segment (prune, presence check,
insert) is a single atomic step of the embedding, mirroring the source,
where no `await` separates the check from the insert. -/
theorem disposition_dedup_gate (p q : DispPayload) (t1 t2 : Nat) (iso1 iso2 : String)
    (cid : Nat) (c2 : Option Nat) (m0 : DedupMap)
    (hd1 : trimStr ((p.disposition <|> p.disposition_name).getD "") ≠ "")
    (hd2 : trimStr ((q.disposition <|> q.disposition_name).getD "") ≠ "")
    (hkey : dispDedupeKey q t2 = dispDedupeKey p t1)
    (hfresh : mapHas (pruneFirstDispositionSeen t1 m0) (dispDedupeKey p t1) = false)
    (hphone : p.phone ≠ "")
    (hwithin : t2 - t1 ≤ FIRST_DISPOSITION_TTL_MS) :
    (handleDisposition p t1 iso1 (some cid) m0).1.created = true ∧
    (handleDisposition p t1 iso1 (some cid) m0).1.deduped = false ∧
    (handleDisposition q t2 iso2 c2 (handleDisposition p t1 iso1 (some cid) m0).2).1 =
      { status := 200, ok := true, created := false, deduped := true,
        skipped := some "Disposition already processed", errMsg := none,
        crmLookups := 0, writes := [] } := by
  refine ⟨by simp [handleDisposition, dedupGate, hd1, hfresh, hphone],
    by simp [handleDisposition, dedupGate, hd1, hfresh, hphone], ?_⟩
  apply handleDisposition_dedup_hit q t2 iso2 c2 _ hd2
  rw [handleDisposition_gate_inserts p t1 iso1 (some cid) m0 hd1 hfresh, hkey]
  exact mapHas_prune_of_recent _ _ _ t2
    (List.mem_append_right _ (List.mem_singleton.2 rfl)) (by simpa using hwithin)

/-- Witness for `disposition_dedup_gate`: a concrete pair of identical
disposition events one hour apart. -/
theorem disposition_dedup_gate_witness :
    (handleDisposition { DispPayload.empty with disposition := some "Sale", call_id := some "C9", phone := "4155550100" } 1000 "2026-01-01 00:00:00" (some 7) []).1.created = true ∧
    (handleDisposition { DispPayload.empty with disposition := some "Sale", call_id := some "C9", phone := "4155550100" } 1000 "2026-01-01 00:00:00" (some 7) []).1.deduped = false ∧
    (handleDisposition { DispPayload.empty with disposition := some "Sale", call_id := some "C9", phone := "4155550100" } 3601000 "2026-01-01 01:00:00" (some 7)
      (handleDisposition { DispPayload.empty with disposition := some "Sale", call_id := some "C9", phone := "4155550100" } 1000 "2026-01-01 00:00:00" (some 7) []).2).1 =
      { status := 200, ok := true, created := false, deduped := true,
        skipped := some "Disposition already processed", errMsg := none,
        crmLookups := 0, writes := [] } :=
  disposition_dedup_gate
    { DispPayload.empty with disposition := some "Sale", call_id := some "C9", phone := "4155550100" }
    { DispPayload.empty with disposition := some "Sale", call_id := some "C9", phone := "4155550100" }
    1000 3601000 "2026-01-01 00:00:00" "2026-01-01 01:00:00" 7 (some 7) []
    (by decide) (by decide) (by decide) (by decide) (by decide) (by decide)

/-- C9 (implicit): the dedupe key is inserted before the phone and contact
checks, so a first delivery that fails with `Missing phone` or is skipped
for lack of a matching contact still records the key (no rollback), and a
later delivery with the same key within 30 days is answered with a
duplicate skip — zero CRM lookups, zero writes — despite no CRM write ever
having been made for that key. -/
theorem disposition_dedup_survives_failures (p q : DispPayload) (t1 t2 : Nat)
    (iso1 iso2 : String) (contact1 contact2 : Option Nat) (m0 : DedupMap)
    (hd1 : trimStr ((p.disposition <|> p.disposition_name).getD "") ≠ "")
    (hd2 : trimStr ((q.disposition <|> q.disposition_name).getD "") ≠ "")
    (hkey : dispDedupeKey q t2 = dispDedupeKey p t1)
    (hfresh : mapHas (pruneFirstDispositionSeen t1 m0) (dispDedupeKey p t1) = false)
    (hfail : p.phone = "" ∨ contact1 = none)
    (hwithin : t2 - t1 ≤ FIRST_DISPOSITION_TTL_MS) :
    (handleDisposition p t1 iso1 contact1 m0).1.created = false ∧
    (handleDisposition p t1 iso1 contact1 m0).1.writes = [] ∧
    ((handleDisposition p t1 iso1 contact1 m0).1.errMsg = some "Missing phone" ∨
      (handleDisposition p t1 iso1 contact1 m0).1.skipped = some "No matching contact in Forth") ∧
    mapHas (handleDisposition p t1 iso1 contact1 m0).2 (dispDedupeKey p t1) = true ∧
    (handleDisposition q t2 iso2 contact2 (handleDisposition p t1 iso1 contact1 m0).2).1 =
      { status := 200, ok := true, created := false, deduped := true,
        skipped := some "Disposition already processed", errMsg := none,
        crmLookups := 0, writes := [] } := by
  have hmap := handleDisposition_gate_inserts p t1 iso1 contact1 m0 hd1 hfresh
  have hhaskey : mapHas (handleDisposition p t1 iso1 contact1 m0).2 (dispDedupeKey p t1) = true := by
    rw [hmap]
    simp [mapHas]
  have hsecond := handleDisposition_dedup_hit q t2 iso2 contact2
    (handleDisposition p t1 iso1 contact1 m0).2 hd2 (by
      rw [hmap, hkey]
      exact mapHas_prune_of_recent _ _ _ t2
        (List.mem_append_right _ (List.mem_singleton.2 rfl)) (by simpa using hwithin))
  rcases hfail with hp | hc
  · exact ⟨by simp [handleDisposition, dedupGate, hd1, hfresh, hp],
      by simp [handleDisposition, dedupGate, hd1, hfresh, hp],
      Or.inl (by simp [handleDisposition, dedupGate, hd1, hfresh, hp]),
      hhaskey, hsecond⟩
  · subst hc
    by_cases hp : p.phone = ""
    · exact ⟨by simp [handleDisposition, dedupGate, hd1, hfresh, hp],
        by simp [handleDisposition, dedupGate, hd1, hfresh, hp],
        Or.inl (by simp [handleDisposition, dedupGate, hd1, hfresh, hp]),
        hhaskey, hsecond⟩
    · exact ⟨by simp [handleDisposition, dedupGate, hd1, hfresh, hp],
        by simp [handleDisposition, dedupGate, hd1, hfresh, hp],
        Or.inr (by simp [handleDisposition, dedupGate, hd1, hfresh, hp]),
        hhaskey, hsecond⟩

/-- Witness for `disposition_dedup_survives_failures`: a first delivery
with a blank phone, then the same event again 1000 ms later. -/
theorem disposition_dedup_survives_failures_witness :
    (handleDisposition { DispPayload.empty with disposition := some "Callback", call_id := some "C13" } 5000 "iso" (some 3) []).1.created = false ∧
    (handleDisposition { DispPayload.empty with disposition := some "Callback", call_id := some "C13" } 5000 "iso" (some 3) []).1.writes = [] ∧
    ((handleDisposition { DispPayload.empty with disposition := some "Callback", call_id := some "C13" } 5000 "iso" (some 3) []).1.errMsg = some "Missing phone" ∨
      (handleDisposition { DispPayload.empty with disposition := some "Callback", call_id := some "C13" } 5000 "iso" (some 3) []).1.skipped = some "No matching contact in Forth") ∧
    mapHas (handleDisposition { DispPayload.empty with disposition := some "Callback", call_id := some "C13" } 5000 "iso" (some 3) []).2
      (dispDedupeKey { DispPayload.empty with disposition := some "Callback", call_id := some "C13" } 5000) = true ∧
    (handleDisposition { DispPayload.empty with disposition := some "Callback", call_id := some "C13" } 6000 "iso" (some 3)
      (handleDisposition { DispPayload.empty with disposition := some "Callback", call_id := some "C13" } 5000 "iso" (some 3) []).2).1 =
      { status := 200, ok := true, created := false, deduped := true,
        skipped := some "Disposition already processed", errMsg := none,
        crmLookups := 0, writes := [] } :=
  disposition_dedup_survives_failures
    { DispPayload.empty with disposition := some "Callback", call_id := some "C13" }
    { DispPayload.empty with disposition := some "Callback", call_id := some "C13" }
    5000 6000 "iso" "iso" (some 3) (some 3) []
    (by decide) (by decide) (by decide) (by decide) (Or.inl rfl) (by decide)

theorem getForthApiKey_cached (fallback : Option String) (o : RefreshOutcome) (now : Int)
    (s : TokenState) (k : String) (hs : s.token = some k) (hk : k ≠ "")
    (hvalid : now < s.expiresAt - FORTH_TOKEN_BUFFER_MS) :
    getForthApiKey true fallback o now s = (s, .ok k, false) := by
  simp [getForthApiKey, hs, hk, hvalid]

/-- C4: `forthFetch` issues at most two calls to the wrapped endpoint; a
non-401/403 first response is returned as-is with no refresh; a 401/403
first response clears the cache, forces exactly one refresh, and retries
exactly once with the new token — the retry's response (even another
401/403) is returned without further retries; a failing rejection-refresh
propagates its error with no retry call. -/
theorem forthFetch_retry_once (fallback : Option String) (o : RefreshOutcome) (now : Int)
    (s : TokenState) (endpoint : Nat → Nat) (k : String)
    (hs : s.token = some k) (hk : k ≠ "")
    (hvalid : now < s.expiresAt - FORTH_TOKEN_BUFFER_MS) :
    (forthFetch true fallback o now s endpoint).1.length ≤ 2 ∧
    (¬(endpoint 0 = 401 ∨ endpoint 0 = 403) →
      forthFetch true fallback o now s endpoint = ([k], .ok (endpoint 0), s)) ∧
    (∀ t ein, (endpoint 0 = 401 ∨ endpoint 0 = 403) → o = .http true (some t) ein →
      (forthFetch true fallback o now s endpoint).1 = [k, t] ∧
      (forthFetch true fallback o now s endpoint).2.1 = .ok (endpoint 1) ∧
      (forthFetch true fallback o now s endpoint).2.2.token = some t) ∧
    (∀ msg, (endpoint 0 = 401 ∨ endpoint 0 = 403) → o = .netError msg →
      forthFetch true fallback o now s endpoint =
        ([k], .error msg, { token := none, expiresAt := 0 })) := by
  have hacq := getForthApiKey_cached fallback o now s k hs hk hvalid
  refine ⟨?_, ?_, ?_, ?_⟩
  · by_cases h01 : endpoint 0 = 401 ∨ endpoint 0 = 403
    · cases hE : (refreshForthAccessToken true o now { token := none, expiresAt := 0 }).2 <;>
        simp [forthFetch, hacq, h01, hE]
    · simp [forthFetch, hacq, h01]
  · intro h01
    simp [forthFetch, hacq, h01]
  · intro t ein h01 ho
    subst ho
    refine ⟨?_, ?_, ?_⟩ <;> simp [forthFetch, hacq, h01, refreshForthAccessToken]
  · intro msg h01 ho
    subst ho
    simp [forthFetch, hacq, h01, refreshForthAccessToken]

/-- Witness for `forthFetch_retry_once`: a valid cached token `"k0"`, an
endpoint that answers 401 then 200, and a refresh that yields `"k1"`. -/
theorem forthFetch_retry_once_witness :
    ((forthFetch true none (.http true (some "k1") none) 0
        { token := some "k0", expiresAt := 100000000 }
        (fun i => if i = 0 then 401 else 200)).1.length ≤ 2) ∧
    ((forthFetch true none (.http true (some "k1") none) 0
        { token := some "k0", expiresAt := 100000000 }
        (fun i => if i = 0 then 401 else 200)).1 = ["k0", "k1"] ∧
      (forthFetch true none (.http true (some "k1") none) 0
        { token := some "k0", expiresAt := 100000000 }
        (fun i => if i = 0 then 401 else 200)).2.1 = .ok 200 ∧
      (forthFetch true none (.http true (some "k1") none) 0
        { token := some "k0", expiresAt := 100000000 }
        (fun i => if i = 0 then 401 else 200)).2.2.token = some "k1") :=
  ⟨(forthFetch_retry_once none (.http true (some "k1") none) 0
      { token := some "k0", expiresAt := 100000000 }
      (fun i => if i = 0 then 401 else 200) "k0" rfl (by decide) (by decide)).1,
   (forthFetch_retry_once none (.http true (some "k1") none) 0
      { token := some "k0", expiresAt := 100000000 }
      (fun i => if i = 0 then 401 else 200) "k0" rfl (by decide) (by decide)).2.2.1
      "k1" none (by decide) rfl⟩

/-- Counterexample to C7 as stated: for a successful refresh whose server
TTL is `expires_in = 0`, the claim's formula `now + min(TTL, 9 days)`
gives `now`, but the code treats the falsy `0` like an omitted TTL and
sets `expiresAt = now + 9 days`. -/
theorem refresh_zero_ttl_counterexample :
    (refreshForthAccessToken true (.http true (some "tok") (some 0)) 1000
        { token := none, expiresAt := 0 }).1.expiresAt =
      1000 + FORTH_TOKEN_DEFAULT_TTL_MS ∧
    (refreshForthAccessToken true (.http true (some "tok") (some 0)) 1000
        { token := none, expiresAt := 0 }).1.expiresAt ≠
      1000 + min ((0 : Int) * 1000) FORTH_TOKEN_DEFAULT_TTL_MS := by
  refine ⟨by decide, by decide⟩

/-- C7 (amended): `acquire()` returns the static fallback (or `""`) when
refresh credentials are unconfigured; with credentials, the cached token
is returned without a refresh exactly when a non-empty token is cached and
`now < expiresAt - 6h`, and a refresh is performed otherwise; a successful
refresh sets `expiresAt = now + min(TTL, 9 days)` for a POSITIVE server
TTL and `now + 9 days` when the TTL is absent — or zero, which the code's
falsy test treats as absent; every failed refresh leaves the cached token
and expiry unchanged. -/
theorem getForthApiKey_contract (fallback : Option String) (o : RefreshOutcome)
    (now : Int) (s : TokenState) :
    getForthApiKey false fallback o now s = (s, .ok (fallback.getD ""), false) ∧
    (∀ k, s.token = some k → k ≠ "" → now < s.expiresAt - FORTH_TOKEN_BUFFER_MS →
      getForthApiKey true fallback o now s = (s, .ok k, false)) ∧
    (∀ k, s.token = some k → ¬(k ≠ "" ∧ now < s.expiresAt - FORTH_TOKEN_BUFFER_MS) →
      (getForthApiKey true fallback o now s).2.2 = true) ∧
    (s.token = none → (getForthApiKey true fallback o now s).2.2 = true) ∧
    (∀ t e, e ≠ 0 →
      refreshForthAccessToken true (.http true (some t) (some e)) now s =
        ({ token := some t,
           expiresAt := now + min ((e : Int) * 1000) FORTH_TOKEN_DEFAULT_TTL_MS }, .ok t)) ∧
    (∀ t, refreshForthAccessToken true (.http true (some t) none) now s =
        ({ token := some t, expiresAt := now + FORTH_TOKEN_DEFAULT_TTL_MS }, .ok t)) ∧
    (∀ t, refreshForthAccessToken true (.http true (some t) (some 0)) now s =
        ({ token := some t, expiresAt := now + FORTH_TOKEN_DEFAULT_TTL_MS }, .ok t)) ∧
    (∀ msg, refreshForthAccessToken true (.netError msg) now s = (s, .error msg)) ∧
    (∀ tok e, refreshForthAccessToken true (.http false tok e) now s =
      (s, .error "HTTP error")) ∧
    (∀ e, refreshForthAccessToken true (.http true none e) now s =
      (s, .error "No access_token in response")) := by
  refine ⟨?_, ?_, ?_, ?_, ?_, ?_, ?_, ?_, ?_, ?_⟩
  · cases fallback with
    | none => simp [getForthApiKey, jsOrStr]
    | some f =>
      by_cases hf : f = "" <;> simp [getForthApiKey, jsOrStr, hf]
  · intro k hk hne hlt
    simp [getForthApiKey, hk, hne, hlt]
  · intro k hk hcond
    simp [getForthApiKey, hk, hcond]
  · intro h
    simp [getForthApiKey, h]
  · intro t e he
    simp [refreshForthAccessToken, he]
  · intro t
    simp [refreshForthAccessToken]
  · intro t
    simp [refreshForthAccessToken]
  · intro msg
    simp [refreshForthAccessToken]
  · intro tok e
    simp [refreshForthAccessToken]
  · intro e
    simp [refreshForthAccessToken]

/-- Witness for `getForthApiKey_contract`: a concrete valid cache returns
its token without refresh, and a concrete successful refresh with a 500 s
TTL stores `now + 500000` ms. -/
theorem getForthApiKey_contract_witness :
    getForthApiKey true (some "fb") (.netError "x") 0
      { token := some "cached", expiresAt := 100000000 } =
      ({ token := some "cached", expiresAt := 100000000 }, .ok "cached", false) ∧
    refreshForthAccessToken true (.http true (some "t0") (some 500)) 0
      { token := some "cached", expiresAt := 100000000 } =
      ({ token := some "t0", expiresAt := 0 + min ((500 : Int) * 1000) FORTH_TOKEN_DEFAULT_TTL_MS }, .ok "t0") :=
  ⟨(getForthApiKey_contract (some "fb") (.netError "x") 0
      { token := some "cached", expiresAt := 100000000 }).2.1 "cached" rfl (by decide) (by decide),
   ((getForthApiKey_contract (some "fb") (.netError "x") 0
      { token := some "cached", expiresAt := 100000000 }).2.2.2.2.1) "t0" 500 (by decide)⟩

theorem marker_joined_contains (p : String → Bool) (hp : p directionMissingMarker = true)
    (rest : List String) (tail : List Char) :
    strContains ((joinSep " | " (List.filter p (directionMissingMarker :: rest))).data ++ tail)
      "Direction MISSING".data = true := by
  have hbase : strContains directionMissingMarker.data "Direction MISSING".data = true := by
    decide
  rw [show List.filter p (directionMissingMarker :: rest) =
      directionMissingMarker :: List.filter p rest by simp [hp]]
  cases hf : List.filter p rest with
  | nil =>
    rw [show joinSep " | " [directionMissingMarker] = directionMissingMarker from rfl]
    exact strContains_extend _ _ _ hbase
  | cons y ys =>
    rw [show joinSep " | " (directionMissingMarker :: y :: ys) =
        directionMissingMarker ++ " | " ++ joinSep " | " (y :: ys) from rfl,
      String.data_append, String.data_append]
    exact strContains_extend _ _ _ (strContains_extend _ _ _ (strContains_extend _ _ _ hbase))

/-- C8: when neither the webhook payload's `call_type` nor (if enrichment
succeeded) the log entry's `call_type` maps to a direction, and a matching
contact exists, the call-completed handler writes no call record at all —
it writes exactly one contact note, addressed to that contact, containing
the `Direction MISSING` diagnostic marker — and the request resolves as a
200 success. -/
theorem callCompleted_direction_missing (convoso : CCPayload)
    (convosoLog : Option (ConvosoLogEntry × Nat)) (cid : Nat) (nowIso : String)
    (hphone : convoso.phone ≠ "")
    (hdir : convosoCallTypeToForth convoso.call_type = none)
    (hlogdir : ∀ lg a, convosoLog = some (lg, a) → convosoCallTypeToForth lg.call_type = none) :
    (handleCallCompleted convoso convosoLog (some cid) nowIso).status = 200 ∧
    (handleCallCompleted convoso convosoLog (some cid) nowIso).ok = true ∧
    (handleCallCompleted convoso convosoLog (some cid) nowIso).writes.length = 1 ∧
    (handleCallCompleted convoso convosoLog (some cid) nowIso).writes.all (isNoteFor cid) = true ∧
    (handleCallCompleted convoso convosoLog (some cid) nowIso).writes.all writeHasMarker = true ∧
    (handleCallCompleted convoso convosoLog (some cid) nowIso).writes.countP isCallWrite = 0 := by
  cases convosoLog with
  | none =>
    refine ⟨?_, ?_, ?_, ?_, ?_, ?_⟩ <;>
      simp [handleCallCompleted, hphone, hdir, writeHasMarker, isNoteFor, isCallWrite]
    exact marker_joined_contains _ (by decide) _ _
  | some la =>
    obtain ⟨lg, a⟩ := la
    have hld := hlogdir lg a rfl
    refine ⟨?_, ?_, ?_, ?_, ?_, ?_⟩ <;>
      simp [handleCallCompleted, hphone, hld, writeHasMarker, isNoteFor, isCallWrite]
    exact marker_joined_contains _ (by decide) _ _

/-- Witness for `callCompleted_direction_missing`: a webhook with a phone
but no `call_type` and no enrichment, against contact `7`. -/
theorem callCompleted_direction_missing_witness :
    (handleCallCompleted { CCPayload.empty with phone := "4155550100" } none (some 7) "2026-01-01 00:00:00").status = 200 ∧
    (handleCallCompleted { CCPayload.empty with phone := "4155550100" } none (some 7) "2026-01-01 00:00:00").ok = true ∧
    (handleCallCompleted { CCPayload.empty with phone := "4155550100" } none (some 7) "2026-01-01 00:00:00").writes.length = 1 ∧
    (handleCallCompleted { CCPayload.empty with phone := "4155550100" } none (some 7) "2026-01-01 00:00:00").writes.all (isNoteFor 7) = true ∧
    (handleCallCompleted { CCPayload.empty with phone := "4155550100" } none (some 7) "2026-01-01 00:00:00").writes.all writeHasMarker = true ∧
    (handleCallCompleted { CCPayload.empty with phone := "4155550100" } none (some 7) "2026-01-01 00:00:00").writes.countP isCallWrite = 0 :=
  callCompleted_direction_missing { CCPayload.empty with phone := "4155550100" } none 7
    "2026-01-01 00:00:00" (by decide) rfl (fun lg a h => nomatch h)
